import Mathlib

/-
Verification of the natural-language specification of
gloox src/connectiontcpbase.cpp (class ConnectionTCPBase) against the code.

Shallow embedding: the connection object is a Lean structure; OS effects
(mutex operations, socket close, epoll calls, logging, handler callbacks)
are recorded as an explicit event trace, and OS results (syscall return
values, lock availability, concurrently observed cancellation flags) are
supplied as explicit oracle inputs.
-/

namespace GlooxTCP

/-- Subset of the gloox ConnectionError enum used by this translation unit.
ConnNoError, ConnNotConnected and ConnIoError are the values the file
produces; the others stand for the further outcomes the lower-level
single-attempt recv can report. -/
inductive ConnectionError where
  | ConnNoError
  | ConnStreamError
  | ConnStreamClosed
  | ConnIoError
  | ConnUserDisconnected
  | ConnNotConnected
  deriving DecidableEq

/-- The gloox ConnectionState enum. -/
inductive ConnectionState where
  | StateDisconnected
  | StateConnecting
  | StateConnected
  deriving DecidableEq

/-- The fields of ConnectionTCPBase (with the inherited ConnectionBase
fields it uses): socket descriptor, coarse state, cancellation flag, the
two byte counters, server/port, the receive scratch buffer (modelled by
its allocated size, none when the pointer is null) and whether a data
handler is registered. The two mutexes are not object data here: lock
outcomes are oracle inputs and lock operations appear in event traces. -/
structure ConnectionTCPBase where
  m_handlerPresent : Bool
  m_server : String
  m_port : Int
  m_state : ConnectionState
  m_socket : Int
  m_totalBytesIn : Nat
  m_totalBytesOut : Nat
  m_bufsize : Nat
  m_buf : Option Nat
  m_cancel : Bool
  deriving DecidableEq

/-- Observable effects of the member functions: mutex operations, the
delegated socket close (DNS::closeSocket), log-sink error reports, the
handler disconnect callback, and the epoll calls of dataAvailable. -/
inductive Event where
  | trylockSend (ok : Bool)
  | trylockRecv (ok : Bool)
  | lockSend
  | lockRecv
  | unlockSend
  | unlockRecv
  | closeSocket (fd : Int)
  | logErr (msg : String)
  | handleDisconnect (e : ConnectionError)
  | epollCreate (fd : Int)
  | epollCtlAdd (epfd : Int) (fd : Int)
  | epollWait (epfd : Int) (timeoutMs : Int)
  | epollClose (fd : Int)
  deriving DecidableEq

/-- ConnectionTCPBase::init. prep::idna is an external collaborator (prep.h
is outside this translation unit), so its output is taken as the input
idnaServer; m_buf is calloc(m_bufsize + 1, 1). -/
def init (c : ConnectionTCPBase) (idnaServer : String) (port : Int) :
    ConnectionTCPBase :=
  { c with m_server := idnaServer, m_port := port,
           m_buf := some (c.m_bufsize + 1) }

/-- The two constructors (they differ only in the handler argument: the
first passes 0, the second a handler pointer, here handlerPresent).
Member initializers from the source: m_buf(0), m_socket(-1),
m_totalBytesIn(0), m_totalBytesOut(0), m_bufsize(8192), m_cancel(true);
then init(server, port). Modelled from the spec: the inherited
ConnectionBase member initialization (connectionbase.h is not under src/)
sets the initial state to Disconnected, per the spec data model
(Disconnected is the initial state). -/
def mkConnectionTCPBase (handlerPresent : Bool) (idnaServer : String)
    (port : Int) : ConnectionTCPBase :=
  init
    { m_handlerPresent := handlerPresent
      m_server := ""
      m_port := -1
      m_state := ConnectionState.StateDisconnected
      m_socket := -1
      m_totalBytesIn := 0
      m_totalBytesOut := 0
      m_bufsize := 8192
      m_buf := none
      m_cancel := true }
    idnaServer port

/-- ConnectionTCPBase::disconnect: guard the recv mutex, set m_cancel.
The MutexGuard acquires on construction and releases when it leaves
scope, hence the lockRecv / unlockRecv trace. -/
def disconnect (c : ConnectionTCPBase) : ConnectionTCPBase × List Event :=
  ({ c with m_cancel := true }, [Event.lockRecv, Event.unlockRecv])

/-- Result of cleanup: the connection state afterwards and the event
trace (lock operations and the delegated socket close). -/
structure CleanupResult where
  conn : ConnectionTCPBase
  events : List Event
  deriving DecidableEq

/-- ConnectionTCPBase::cleanup. sendLockOk / recvLockOk are the outcomes
of the two trylock calls. On a failed trylock of the send mutex the
function returns at once; on a failed trylock of the recv mutex it
unlocks the send mutex and returns. Otherwise it closes the socket via
DNS::closeSocket when m_socket >= 0, sets the sentinel, resets state,
sets m_cancel, zeroes both counters, and unlocks both mutexes. -/
def cleanup (c : ConnectionTCPBase) (sendLockOk recvLockOk : Bool) :
    CleanupResult :=
  if !sendLockOk then
    ⟨c, [Event.trylockSend false]⟩
  else if !recvLockOk then
    ⟨c, [Event.trylockSend true, Event.trylockRecv false, Event.unlockSend]⟩
  else
    let closeEv := if 0 ≤ c.m_socket then [Event.closeSocket c.m_socket] else []
    let c1 := if 0 ≤ c.m_socket then { c with m_socket := -1 } else c
    ⟨{ c1 with m_state := ConnectionState.StateDisconnected,
               m_cancel := true,
               m_totalBytesIn := 0,
               m_totalBytesOut := 0 },
     [Event.trylockSend true, Event.trylockRecv true] ++ closeEv ++
       [Event.unlockRecv, Event.unlockSend]⟩

/-- ConnectionTCPBase::getStatistics: copies the two counters out,
taking no lock. -/
def getStatistics (c : ConnectionTCPBase) : Nat × Nat :=
  (c.m_totalBytesIn, c.m_totalBytesOut)

/-- The C cast of the int returned by the send syscall to size_t used by
the loop increment num += sent (64-bit size_t). -/
def toSizeT (r : Int) : Nat := (Int.emod r (2 ^ 64)).toNat

/-- The write loop of ConnectionTCPBase::send:
sent = 0; for( num = 0; sent != -1 and num < len; num += sent )
sent = ::send(...). Each element of results is the return value of one
::send call, consumed in order; num is a size_t so the increment wraps
modulo 2^64. Returns the final value of sent when the loop exits within
the supplied results, none when it would keep calling past them. -/
def sendLoop (len : Nat) : Nat → Int → List Int → Option Int
  | num, sent, results =>
    if sent = -1 ∨ ¬ num < len then some sent
    else
      match results with
      | [] => none
      | r :: rest => sendLoop len ((num + toSizeT r) % 2 ^ 64) r rest

/-- Result of send: the connection afterwards, the boolean return value
(none when the write loop ran past the supplied syscall results), and
the event trace. -/
structure SendResult where
  conn : ConnectionTCPBase
  ret : Option Bool
  events : List Event
  deriving DecidableEq

/-- ConnectionTCPBase::send(data). Locks the send mutex; on empty data or
no open socket unlocks and returns false. Otherwise runs the write loop,
adds the full data length to m_totalBytesOut, unlocks, and on a loop
exit with sent == -1 logs the error and, when a handler is registered,
calls handleDisconnect(ConnIoError); returns sent != -1. -/
def send (c : ConnectionTCPBase) (data : String) (results : List Int) :
    SendResult :=
  if data.length = 0 ∨ c.m_socket < 0 then
    ⟨c, some false, [Event.lockSend, Event.unlockSend]⟩
  else
    match sendLoop data.length 0 0 results with
    | none => ⟨c, none, [Event.lockSend]⟩
    | some sent =>
      let c1 := { c with m_totalBytesOut := c.m_totalBytesOut + data.length }
      if sent = -1 then
        ⟨c1, some false,
         [Event.lockSend, Event.unlockSend, Event.logErr "send() failed"] ++
           (if c.m_handlerPresent then
              [Event.handleDisconnect ConnectionError.ConnIoError]
            else [])⟩
      else
        ⟨c1, some true, [Event.lockSend, Event.unlockSend]⟩

/-- One iteration of the receive loop, as observed: the value of m_cancel
read at the top of the condition (it may be changed concurrently by
disconnect or cleanup), and the value recv(1000000) would return if
called at that iteration. -/
abbrev RecvStep := Bool × ConnectionError

/-- The loop of ConnectionTCPBase::receive:
while( !m_cancel and ( err = recv( 1000000 ) ) == ConnNoError ); with err
starting at ConnNoError. Consumes one step per iteration; short-circuit:
when the observed m_cancel is true, recv is not called. Returns the
final err together with the number of recv calls performed, or none when
the loop would run past the supplied steps. -/
def receiveLoop (err : ConnectionError) :
    List RecvStep → Option (ConnectionError × Nat)
  | [] => none
  | (cncl, r) :: rest =>
    if cncl then some (err, 0)
    else if r = ConnectionError.ConnNoError then
      match receiveLoop r rest with
      | none => none
      | some (e, n) => some (e, n + 1)
    else some (r, 1)

/-- ConnectionTCPBase::receive: ConnNotConnected at once when m_socket <
0 (zero recv calls); otherwise the loop runs and a final err of
ConnNoError is translated to ConnNotConnected. -/
def receive (c : ConnectionTCPBase) (steps : List RecvStep) :
    Option (ConnectionError × Nat) :=
  if c.m_socket < 0 then some (ConnectionError.ConnNotConnected, 0)
  else
    match receiveLoop ConnectionError.ConnNoError steps with
    | none => none
    | some (e, n) =>
      some ((if e = ConnectionError.ConnNoError then
               ConnectionError.ConnNotConnected
             else e), n)

/-- Modelled from the claim wording for C5 (spec section 4.3), for
comparison with receive: the result is the first non-NoError recv
outcome among the steps, except that when a true cancellation
observation comes first the result is NotConnected. -/
def receiveSpec : List RecvStep → Option ConnectionError
  | [] => none
  | (cncl, r) :: rest =>
    if cncl then some ConnectionError.ConnNotConnected
    else if r = ConnectionError.ConnNoError then receiveSpec rest
    else some r

/-- Oracle for the epoll calls made by one dataAvailable call:
the return values of epoll_create1(0), epoll_ctl(ADD) and epoll_wait. -/
structure EpollOracle where
  createResult : Int
  ctlResult : Int
  waitResult : Int
  deriving DecidableEq

/-- The millisecond argument dataAvailable passes to epoll_wait:
timeout / 1000 with C int division (truncation toward zero). -/
def waitMillis (timeout : Int) : Int := Int.tdiv timeout 1000

/-- ConnectionTCPBase::dataAvailable(timeout). With no open socket,
true at once with no epoll activity. Otherwise: epoll_create1 failure
(-1) is logged and yields false; epoll_ctl failure is logged, the epoll
fd is closed, and the result is false; else epoll_wait runs with
timeout / 1000 milliseconds, the epoll fd is closed, and the result is
nfds > 0. -/
def dataAvailable (c : ConnectionTCPBase) (timeout : Int)
    (o : EpollOracle) : Bool × List Event :=
  if c.m_socket < 0 then
    (true, [])
  else if o.createResult = -1 then
    (false, [Event.logErr "epoll_create1() failed"])
  else if o.ctlResult = -1 then
    (false, [Event.epollCreate o.createResult,
             Event.epollCtlAdd o.createResult c.m_socket,
             Event.logErr "epoll_ctl() failed",
             Event.epollClose o.createResult])
  else
    (0 < o.waitResult,
     [Event.epollCreate o.createResult,
      Event.epollCtlAdd o.createResult c.m_socket,
      Event.epollWait o.createResult (waitMillis timeout),
      Event.epollClose o.createResult])

/-- A sample connected instance with prior traffic, used by the witness
theorems. -/
def sampleConn : ConnectionTCPBase :=
  { m_handlerPresent := true
    m_server := "example.net"
    m_port := 5222
    m_state := ConnectionState.StateConnected
    m_socket := 7
    m_totalBytesIn := 123
    m_totalBytesOut := 456
    m_bufsize := 8192
    m_buf := some 8193
    m_cancel := false }

/-- C1: after cleanup() returns having acquired both locks, both byte
counters are zero, the state is Disconnected, the socket field is the
sentinel -1, and the cancellation flag is true. The hypothesis -1 ≤
m_socket is the spec data-model invariant that the socket field is
either the sentinel or an open descriptor. -/
theorem c1_cleanup_resets (c : ConnectionTCPBase) (h : -1 ≤ c.m_socket) :
    (cleanup c true true).conn.m_totalBytesIn = 0 ∧
    (cleanup c true true).conn.m_totalBytesOut = 0 ∧
    (cleanup c true true).conn.m_state = ConnectionState.StateDisconnected ∧
    (cleanup c true true).conn.m_socket = -1 ∧
    (cleanup c true true).conn.m_cancel = true := by
  by_cases hs : 0 ≤ c.m_socket <;> simp [cleanup, hs]
  omega

/-- Witness for C1 at a concrete connected instance with prior traffic. -/
theorem c1_witness :
    (cleanup sampleConn true true).conn.m_totalBytesIn = 0 ∧
    (cleanup sampleConn true true).conn.m_totalBytesOut = 0 ∧
    (cleanup sampleConn true true).conn.m_state =
      ConnectionState.StateDisconnected ∧
    (cleanup sampleConn true true).conn.m_socket = -1 ∧
    (cleanup sampleConn true true).conn.m_cancel = true :=
  c1_cleanup_resets sampleConn (by decide)

/-- C2: if cleanup() fails to trylock the send mutex, or trylocks it but
fails to trylock the recv mutex, the connection object is returned
exactly as it was (socket, state, cancellation flag, both counters all
unchanged) and the only events are the failed trylock, respectively the
successful send trylock, the failed recv trylock and the matching send
unlock. -/
theorem c2_cleanup_aborts (c : ConnectionTCPBase) (b : Bool) :
    cleanup c false b = ⟨c, [Event.trylockSend false]⟩ ∧
    cleanup c true false =
      ⟨c, [Event.trylockSend true, Event.trylockRecv false,
           Event.unlockSend]⟩ :=
  ⟨rfl, rfl⟩

/-- C8: disconnect() takes only the receive-side lock, sets the
cancellation flag, and changes nothing else: socket, state, server,
port, both counters and the receive buffer are unchanged. -/
theorem c8_disconnect_frame (c : ConnectionTCPBase) :
    disconnect c = ({ c with m_cancel := true },
                    [Event.lockRecv, Event.unlockRecv]) ∧
    (disconnect c).1.m_cancel = true ∧
    (disconnect c).1.m_socket = c.m_socket ∧
    (disconnect c).1.m_state = c.m_state ∧
    (disconnect c).1.m_server = c.m_server ∧
    (disconnect c).1.m_port = c.m_port ∧
    (disconnect c).1.m_totalBytesIn = c.m_totalBytesIn ∧
    (disconnect c).1.m_totalBytesOut = c.m_totalBytesOut ∧
    (disconnect c).1.m_buf = c.m_buf :=
  ⟨rfl, rfl, rfl, rfl, rfl, rfl, rfl, rfl, rfl⟩

/-- A sample never-connected instance (socket still the sentinel -1), as
produced by the constructor; used by the witness theorems. -/
def closedConn : ConnectionTCPBase := mkConnectionTCPBase true "example.net" 5222

/-- Helper: the receive loop, with its final ConnNoError translated the
way receive translates it, agrees with the claim-side description
receiveSpec. -/
theorem receiveLoop_eq_spec (steps : List RecvStep) :
    (receiveLoop ConnectionError.ConnNoError steps).map
      (fun p => if p.1 = ConnectionError.ConnNoError then
                  ConnectionError.ConnNotConnected else p.1)
      = receiveSpec steps := by
  induction steps with
  | nil => rfl
  | cons s rest ih =>
    obtain ⟨cncl, r⟩ := s
    by_cases hc : cncl
    · simp [receiveLoop, receiveSpec, hc]
    · by_cases hr : r = ConnectionError.ConnNoError
      · rw [hr]
        simp only [receiveLoop, receiveSpec, hc, hr, if_false, if_true,
          Bool.false_eq_true, ite_true, ite_false]
        cases h : receiveLoop ConnectionError.ConnNoError rest with
        | none => rw [h] at ih; simpa using ih
        | some p =>
          obtain ⟨e, n⟩ := p
          rw [h] at ih
          simpa using ih
      · simp [receiveLoop, receiveSpec, hc, hr]

/-- C3: send on a non-empty byte sequence with an open socket adds the
full requested length to m_totalBytesOut, whether the write loop ends
successfully or stops on a fatal (-1) syscall result. -/
theorem c3_send_counts_full_length (c : ConnectionTCPBase) (data : String)
    (results : List Int) (sent : Int)
    (hlen : 0 < data.length) (hsock : 0 ≤ c.m_socket)
    (hloop : sendLoop data.length 0 0 results = some sent) :
    (send c data results).conn.m_totalBytesOut
      = c.m_totalBytesOut + data.length := by
  have hcond : ¬ (data.length = 0 ∨ c.m_socket < 0) := by
    push_neg
    exact ⟨by omega, by omega⟩
  unfold send
  rw [if_neg hcond, hloop]
  by_cases hs : sent = -1 <;> simp [hs]

/-- Witness for C3: two bytes on the sample connection, once with a
successful loop (two one-byte writes) and once stopping on a fatal
error after the first byte. -/
theorem c3_witness :
    (send sampleConn "ab" [1, 1]).conn.m_totalBytesOut
        = sampleConn.m_totalBytesOut + "ab".length ∧
    (send sampleConn "ab" [1, -1]).conn.m_totalBytesOut
        = sampleConn.m_totalBytesOut + "ab".length :=
  ⟨c3_send_counts_full_length sampleConn "ab" [1, 1] 1
      (by decide) (by decide) (by decide),
   c3_send_counts_full_length sampleConn "ab" [1, -1] (-1)
      (by decide) (by decide) (by decide)⟩

/-- C4: send with empty data, and send with no open socket, both return
false with the connection unchanged (in particular both counters) and
with no handler callback in the trace (only the mutex lock and unlock). -/
theorem c4_send_rejects (c : ConnectionTCPBase) (data : String)
    (results : List Int) (h : data.length = 0 ∨ c.m_socket < 0) :
    send c data results =
      ⟨c, some false, [Event.lockSend, Event.unlockSend]⟩ := by
  unfold send
  rw [if_pos h]

/-- Witness for C4: empty data on an open connection, and non-empty data
on a never-connected one. -/
theorem c4_witness :
    send sampleConn "" [] =
      ⟨sampleConn, some false, [Event.lockSend, Event.unlockSend]⟩ ∧
    send closedConn "abc" [3] =
      ⟨closedConn, some false, [Event.lockSend, Event.unlockSend]⟩ :=
  ⟨c4_send_rejects sampleConn "" [] (Or.inl (by decide)),
   c4_send_rejects closedConn "abc" [3] (Or.inr (by decide))⟩

/-- C5: receive returns NotConnected at once, with zero recv calls, when
no socket is open; otherwise its result is exactly the claim-side
description: the first non-NoError recv outcome before any true
cancellation observation, with a cancellation-first exit translated to
NotConnected. -/
theorem c5_receive_loop (c : ConnectionTCPBase) (steps : List RecvStep) :
    (c.m_socket < 0 →
      receive c steps = some (ConnectionError.ConnNotConnected, 0)) ∧
    (0 ≤ c.m_socket →
      (receive c steps).map Prod.fst = receiveSpec steps) := by
  constructor
  · intro h
    simp [receive, h]
  · intro h
    have hns : ¬ c.m_socket < 0 := by omega
    rw [← receiveLoop_eq_spec steps]
    unfold receive
    rw [if_neg hns]
    cases receiveLoop ConnectionError.ConnNoError steps with
    | none => rfl
    | some p => obtain ⟨e, n⟩ := p; rfl

/-- Witness for C5: a never-connected instance, and the sample connection
on a run with one clean iteration followed by a peer close. -/
theorem c5_witness :
    receive closedConn [(false, ConnectionError.ConnIoError)] =
      some (ConnectionError.ConnNotConnected, 0) ∧
    (receive sampleConn [(false, ConnectionError.ConnNoError),
        (false, ConnectionError.ConnStreamClosed)]).map Prod.fst =
      receiveSpec [(false, ConnectionError.ConnNoError),
        (false, ConnectionError.ConnStreamClosed)] :=
  ⟨(c5_receive_loop closedConn [(false, ConnectionError.ConnIoError)]).1
      (by decide),
   (c5_receive_loop sampleConn [(false, ConnectionError.ConnNoError),
        (false, ConnectionError.ConnStreamClosed)]).2 (by decide)⟩

/-- C6: for every timeout, dataAvailable on a connection with no open
socket returns true at once, with an empty trace: no epoll context is
created and no wait happens. -/
theorem c6_dataAvailable_closed (c : ConnectionTCPBase) (timeout : Int)
    (o : EpollOracle) (h : c.m_socket < 0) :
    dataAvailable c timeout o = (true, []) := by
  unfold dataAvailable
  rw [if_pos h]

/-- Witness for C6 on a never-connected instance, with an oracle that
would report a working epoll facility. -/
theorem c6_witness :
    dataAvailable closedConn 123456 ⟨4, 0, 1⟩ = (true, []) :=
  c6_dataAvailable_closed closedConn 123456 ⟨4, 0, 1⟩ (by decide)

/-- C7: with an open socket, epoll_create1 failure is logged and yields
false with no context created; epoll_ctl failure is logged, yields
false, and the created context is closed; and on every path where the
context was created (registration failure or the wait path, any number
of ready descriptors) the trace contains its close. -/
theorem c7_dataAvailable_releases (c : ConnectionTCPBase) (timeout : Int)
    (o : EpollOracle) (hsock : 0 ≤ c.m_socket) :
    (o.createResult = -1 →
      dataAvailable c timeout o
        = (false, [Event.logErr "epoll_create1() failed"])) ∧
    (o.createResult ≠ -1 → o.ctlResult = -1 →
      (dataAvailable c timeout o).1 = false ∧
      Event.logErr "epoll_ctl() failed" ∈ (dataAvailable c timeout o).2 ∧
      Event.epollClose o.createResult ∈ (dataAvailable c timeout o).2) ∧
    (o.createResult ≠ -1 →
      Event.epollClose o.createResult ∈ (dataAvailable c timeout o).2) := by
  have hns : ¬ c.m_socket < 0 := by omega
  refine ⟨fun hcr => ?_, fun hcr hctl => ?_, fun hcr => ?_⟩
  · simp [dataAvailable, hns, hcr]
  · simp [dataAvailable, hns, hcr, hctl]
  · by_cases hctl : o.ctlResult = -1 <;> simp [dataAvailable, hns, hcr, hctl]

/-- Witness for C7: a registration failure (context 5 closed after the
logged error) and a successful wait (context 6 closed). -/
theorem c7_witness :
    ((dataAvailable sampleConn 0 ⟨5, -1, 0⟩).1 = false ∧
      Event.logErr "epoll_ctl() failed"
        ∈ (dataAvailable sampleConn 0 ⟨5, -1, 0⟩).2 ∧
      Event.epollClose 5 ∈ (dataAvailable sampleConn 0 ⟨5, -1, 0⟩).2) ∧
    Event.epollClose 6 ∈ (dataAvailable sampleConn 2000000 ⟨6, 0, 1⟩).2 :=
  ⟨(c7_dataAvailable_releases sampleConn 0 ⟨5, -1, 0⟩ (by decide)).2.1
      (by decide) (by decide),
   (c7_dataAvailable_releases sampleConn 2000000 ⟨6, 0, 1⟩ (by decide)).2.2
      (by decide)⟩

/-- C9: the millisecond value handed to epoll_wait is timeout / 1000 with
truncating division: any timeout in [0, 1000) waits 0 milliseconds, and
in general the wait (in microseconds, 1000 times the millisecond value)
falls short of the requested timeout by the sub-millisecond remainder. -/
theorem c9_wait_truncates (c : ConnectionTCPBase) (timeout : Int)
    (o : EpollOracle) (hsock : 0 ≤ c.m_socket)
    (hcr : o.createResult ≠ -1) (hctl : o.ctlResult ≠ -1) :
    Event.epollWait o.createResult (waitMillis timeout)
        ∈ (dataAvailable c timeout o).2 ∧
    (0 ≤ timeout → timeout < 1000 → waitMillis timeout = 0) ∧
    (0 ≤ timeout →
      1000 * waitMillis timeout ≤ timeout ∧
      timeout - 1000 * waitMillis timeout < 1000) := by
  have hns : ¬ c.m_socket < 0 := by omega
  refine ⟨?_, ?_, ?_⟩
  · simp [dataAvailable, hns, hcr, hctl]
  · intro h0 hlt
    obtain ⟨n, rfl⟩ := Int.eq_ofNat_of_zero_le h0
    rw [show waitMillis (↑n) = ↑(n / 1000) from rfl]
    omega
  · intro h0
    obtain ⟨n, rfl⟩ := Int.eq_ofNat_of_zero_le h0
    rw [show waitMillis (↑n) = ↑(n / 1000) from rfl]
    omega

/-- Witness for C9 at timeout 999 microseconds on the sample connection:
the wait event carries waitMillis 999, which is 0 milliseconds. -/
theorem c9_witness :
    Event.epollWait 3 (waitMillis 999)
        ∈ (dataAvailable sampleConn 999 ⟨3, 0, 0⟩).2 ∧
    waitMillis 999 = 0 :=
  ⟨(c9_wait_truncates sampleConn 999 ⟨3, 0, 0⟩
      (by decide) (by decide) (by decide)).1,
   (c9_wait_truncates sampleConn 999 ⟨3, 0, 0⟩
      (by decide) (by decide) (by decide)).2.1 (by decide) (by decide)⟩

/-- C10: both constructors initialize the cancellation flag to true, and
no state-returning operation of this translation unit ever turns it
false: disconnect always leaves it true, cleanup leaves it true whenever
it was true (its abort paths change nothing, its teardown path writes
true), send never touches it, and init never touches it. -/
theorem c10_cancel_monotone :
    (∀ hp s p, (mkConnectionTCPBase hp s p).m_cancel = true) ∧
    (∀ c : ConnectionTCPBase, (disconnect c).1.m_cancel = true) ∧
    (∀ (c : ConnectionTCPBase) (a b : Bool),
      c.m_cancel = true → (cleanup c a b).conn.m_cancel = true) ∧
    (∀ (c : ConnectionTCPBase) (data : String) (results : List Int),
      (send c data results).conn.m_cancel = c.m_cancel) ∧
    (∀ (c : ConnectionTCPBase) (s : String) (p : Int),
      (init c s p).m_cancel = c.m_cancel) := by
  refine ⟨fun hp s p => rfl, fun c => rfl, fun c a b h => ?_,
          fun c data results => ?_, fun c s p => rfl⟩
  · cases a <;> cases b <;> simp [cleanup, h]
  · unfold send
    split
    · rfl
    · cases hl : sendLoop data.length 0 0 results with
      | none => rfl
      | some sent => by_cases hs : sent = -1 <;> simp [hs]

/-- Witness for C10: the constructor output, and cleanup on a
never-connected instance whose flag is already true. -/
theorem c10_witness :
    (mkConnectionTCPBase false "srv" 1).m_cancel = true ∧
    (cleanup closedConn false false).conn.m_cancel = true :=
  ⟨c10_cancel_monotone.1 false "srv" 1,
   c10_cancel_monotone.2.2.1 closedConn false false (by decide)⟩

end GlooxTCP
